import Mathlib

/-!
Verification of the identity-resolution-and-pricing core of the
Wyzinc/Suprides repository.

The Python sources are embedded shallowly:
* money amounts are modelled as exact rationals (`ℚ`); Python's binary
  floats agree with the exact rational results on every value this
  development evaluates (none of them sits at a rounding tie);
* `round(x, 2)` is modelled as round-to-nearest on the scaled value
  (Python uses bankers' rounding at exact half-cent ties; no value in
  this development is a tie, so the models agree there);
* fallible values (`None` in Python) are `Option`;
* external collaborators (the Amazon catalog/offers client, difflib)
  are passed in as explicit arguments.
-/

namespace PricingEngine

/-- `IVA_RATE` from `pricing_engine.py`. -/
def IVA_RATE : ℚ := 0.21

/-- `IVA_FRACTION_IN_GROSS = IVA_RATE / (1.0 + IVA_RATE)` from `pricing_engine.py`. -/
def IVA_FRACTION_IN_GROSS : ℚ := IVA_RATE / (1 + IVA_RATE)

/-- `REFERRAL_RATE_UNDER_100` from `pricing_engine.py`. -/
def REFERRAL_RATE_UNDER_100 : ℚ := 0.15

/-- `REFERRAL_RATE_OVER_100` from `pricing_engine.py`. -/
def REFERRAL_RATE_OVER_100 : ℚ := 0.08

/-- `DST_RATE` from `pricing_engine.py`. -/
def DST_RATE : ℚ := 0.02

/-- `EFF_UNDER_100 = REFERRAL_RATE_UNDER_100 * (1.0 + DST_RATE)`. -/
def EFF_UNDER_100 : ℚ := REFERRAL_RATE_UNDER_100 * (1 + DST_RATE)

/-- `EFF_OVER_100 = REFERRAL_RATE_OVER_100 * (1.0 + DST_RATE)`. -/
def EFF_OVER_100 : ℚ := REFERRAL_RATE_OVER_100 * (1 + DST_RATE)

/-- `STEP_ADJUST_NUMERATOR` from `pricing_engine.py`. -/
def STEP_ADJUST_NUMERATOR : ℚ := 7.14

/-- `SHIP_SURCHARGE` from `pricing_engine.py`. -/
def SHIP_SURCHARGE : ℚ := 4.00

/-- Python's `round(x, 2)`: round to the nearest cent. -/
def round2 (x : ℚ) : ℚ := (round (x * 100) : ℚ) / 100

/-- `_choose_margin` from `pricing_engine.py` (lines 72–97): the chained
`if 0.01 <= c <= 4.99: return 0.16` … comparisons, ending in `return 0.05`. -/
def _choose_margin (c : ℚ) : ℚ :=
  if 0.01 ≤ c ∧ c ≤ 4.99 then 0.16
  else if 5.0 ≤ c ∧ c ≤ 14.99 then 0.15
  else if 15.0 ≤ c ∧ c ≤ 24.99 then 0.13
  else if 25.0 ≤ c ∧ c ≤ 39.99 then 0.11
  else if 40.0 ≤ c ∧ c ≤ 64.99 then 0.09
  else if 65.0 ≤ c ∧ c ≤ 89.99 then 0.07
  else if 90.0 ≤ c ∧ c ≤ 119.99 then 0.06
  else 0.05

/-- `_solve_pvp` from `pricing_engine.py` (lines 100–126): closed-form floor
price with the two referral-fee branches and the epsilon-clamped denominators. -/
def _solve_pvp (cost margin : ℚ) : ℚ :=
  let base := cost + SHIP_SURCHARGE
  let denom_under0 := 1 - IVA_FRACTION_IN_GROSS - margin - EFF_UNDER_100
  let denom_under := if denom_under0 ≤ 0 then 1e-9 else denom_under0
  let p_under := base / denom_under
  if p_under ≤ 100 then round2 p_under
  else
    let denom_over0 := 1 - IVA_FRACTION_IN_GROSS - margin - EFF_OVER_100
    let denom_over := if denom_over0 ≤ 0 then 1e-9 else denom_over0
    round2 ((base + STEP_ADJUST_NUMERATOR) / denom_over)

/-- Result record of `calc_final_price` (the returned dict). -/
structure PriceQuote where
  floor_price : Option ℚ
  final_price : Option ℚ
  margin_used : Option ℚ
deriving DecidableEq, Repr

/-- `calc_final_price` from `pricing_engine.py` (lines 135–181). -/
def calc_final_price (cost : Option ℚ) (competitor_price : Option ℚ)
    (round_to_cents : Bool := true) : PriceQuote :=
  match cost with
  | none => ⟨none, none, none⟩
  | some c =>
    let margin := _choose_margin c
    let p_floor0 := _solve_pvp c margin
    let p_floor := if round_to_cents then round2 p_floor0 else p_floor0
    let p_final0 :=
      match competitor_price with
      | some cp => if 0 < cp then max p_floor (cp - 0.01) else p_floor
      | none => p_floor
    let p_final := if round_to_cents then round2 p_final0 else p_final0
    ⟨some p_floor, some p_final, some margin⟩

/-- Cent-grid reformulation of `_choose_margin`: the margin chosen for a cost
of `n` cents. Used to relate the bracket comparisons to integer arithmetic. -/
def marginZ (n : ℤ) : ℚ :=
  if 1 ≤ n ∧ n ≤ 499 then 0.16
  else if 500 ≤ n ∧ n ≤ 1499 then 0.15
  else if 1500 ≤ n ∧ n ≤ 2499 then 0.13
  else if 2500 ≤ n ∧ n ≤ 3999 then 0.11
  else if 4000 ≤ n ∧ n ≤ 6499 then 0.09
  else if 6500 ≤ n ∧ n ≤ 8999 then 0.07
  else if 9000 ≤ n ∧ n ≤ 11999 then 0.06
  else 0.05

lemma div100_le_div100 (a b : ℤ) : ((a : ℚ) / 100 ≤ (b : ℚ) / 100) ↔ a ≤ b := by
  constructor
  · intro h
    have h' : (a : ℚ) ≤ (b : ℚ) := by linarith
    exact_mod_cast h'
  · intro h
    have h' : (a : ℚ) ≤ (b : ℚ) := by exact_mod_cast h
    linarith

lemma bracket_iff (a b n : ℤ) (x y : ℚ) (hx : x = (a : ℚ) / 100) (hy : y = (b : ℚ) / 100) :
    (x ≤ (n : ℚ) / 100 ∧ (n : ℚ) / 100 ≤ y) ↔ (a ≤ n ∧ n ≤ b) := by
  subst hx; subst hy
  rw [div100_le_div100, div100_le_div100]

set_option maxHeartbeats 1000000 in
lemma choose_margin_cents (n : ℤ) : _choose_margin ((n : ℚ) / 100) = marginZ n := by
  unfold _choose_margin marginZ
  simp only [bracket_iff 1 499 n 0.01 4.99 (by norm_num) (by norm_num),
    bracket_iff 500 1499 n 5.0 14.99 (by norm_num) (by norm_num),
    bracket_iff 1500 2499 n 15.0 24.99 (by norm_num) (by norm_num),
    bracket_iff 2500 3999 n 25.0 39.99 (by norm_num) (by norm_num),
    bracket_iff 4000 6499 n 40.0 64.99 (by norm_num) (by norm_num),
    bracket_iff 6500 8999 n 65.0 89.99 (by norm_num) (by norm_num),
    bracket_iff 9000 11999 n 90.0 119.99 (by norm_num) (by norm_num)]

set_option maxHeartbeats 1600000 in
lemma marginZ_antitone (n1 n2 : ℤ) (h1 : 1 ≤ n1) (h12 : n1 < n2) :
    marginZ n2 ≤ marginZ n1 := by
  unfold marginZ
  split_ifs <;> first | (exfalso; omega) | norm_num

lemma round2_mono {x y : ℚ} (h : x ≤ y) : round2 x ≤ round2 y := by
  unfold round2
  have hr : round (x * 100) ≤ round (y * 100) := by
    rw [round_eq, round_eq]
    exact Int.floor_le_floor (by linarith)
  have hc : ((round (x * 100) : ℤ) : ℚ) ≤ ((round (y * 100) : ℤ) : ℚ) := by exact_mod_cast hr
  linarith

lemma round2_round2 (x : ℚ) : round2 (round2 x) = round2 x := by
  unfold round2
  have h : ((round (x * 100) : ℤ) : ℚ) / 100 * 100 = ((round (x * 100) : ℤ) : ℚ) := by
    field_simp
  rw [h, round_intCast]

/-- C1: for every present cost and competitor price, `calc_final_price` returns
the floor price as final price when no competitor price is known or it is
non-positive, and otherwise `round2 (max floorPrice (competitorPrice - 0.01))`;
consequently the final price is always at least the floor price. -/
theorem claim_final_price_vs_floor (c : ℚ) (cp : Option ℚ) :
    ((cp = none ∨ ∃ p, cp = some p ∧ p ≤ 0) →
      (calc_final_price (some c) cp true).final_price =
        (calc_final_price (some c) cp true).floor_price) ∧
    (∀ p, cp = some p → 0 < p →
      (calc_final_price (some c) cp true).final_price =
        some (round2 (max (round2 (_solve_pvp c (_choose_margin c))) (p - 0.01)))) ∧
    (∀ fl fp, (calc_final_price (some c) cp true).floor_price = some fl →
      (calc_final_price (some c) cp true).final_price = some fp → fl ≤ fp) := by
  have hfl : round2 (round2 (_solve_pvp c (_choose_margin c))) =
      round2 (_solve_pvp c (_choose_margin c)) := round2_round2 _
  refine ⟨?_, ?_, ?_⟩
  · rintro (rfl | ⟨p, rfl, hp⟩)
    · simp [calc_final_price, hfl]
    · simp [calc_final_price, if_neg (not_lt.mpr hp), hfl]
  · rintro p rfl hp
    simp [calc_final_price, if_pos hp]
  · intro fl fp hfl' hfp
    rcases cp with _ | p
    · simp [calc_final_price, hfl] at hfl' hfp
      linarith [hfl', hfp]
    · by_cases hp : 0 < p
      · simp [calc_final_price, if_pos hp] at hfl' hfp
        subst hfl'
        calc round2 (_solve_pvp c (_choose_margin c)) =
              round2 (round2 (_solve_pvp c (_choose_margin c))) := (round2_round2 _).symm
          _ ≤ round2 (max (round2 (_solve_pvp c (_choose_margin c))) (p - 0.01)) :=
              round2_mono (le_max_left _ _)
          _ = fp := hfp.symm ▸ rfl
      · simp [calc_final_price, if_neg hp, hfl] at hfl' hfp
        linarith [hfl', hfp]

/-- C1 witness: at cost 10 and competitor price 40 the published price is
39.99 (competitor minus one cent, above the floor 26.75). -/
theorem claim_final_price_vs_floor_witness :
    (calc_final_price (some 10) (some 40) true).final_price = some 39.99 := by
  have h := (claim_final_price_vs_floor 10 (some 40)).2.1 40 rfl (by norm_num)
  rw [h]
  norm_num [_solve_pvp, _choose_margin, round2, round_eq, IVA_RATE, IVA_FRACTION_IN_GROSS,
    EFF_UNDER_100, EFF_OVER_100, REFERRAL_RATE_UNDER_100, REFERRAL_RATE_OVER_100, DST_RATE,
    STEP_ADJUST_NUMERATOR, SHIP_SURCHARGE]

/-- C2 counterexample: a cost strictly below 0.01 (here 0) does NOT fall
through to the lowest bracket's margin 0.16 — every bracket test has an
inclusive lower bound, so the chain falls through to the final
`return 0.05` instead. -/
theorem claim_margin_below_one_cent_cex :
    _choose_margin 0 = 0.05 ∧ (0.05 : ℚ) ≠ 0.16 := by
  constructor
  · norm_num [_choose_margin]
  · norm_num

/-- C2 amended: for every cost strictly below 0.01 (including 0 and negative
costs), `_choose_margin` returns the catch-all margin 0.05 (the one of the
`≥ 120` bracket), and being a total function it never raises. -/
theorem claim_margin_below_one_cent (c : ℚ) (hc : c < 0.01) : _choose_margin c = 0.05 := by
  unfold _choose_margin
  split_ifs with h1 h2 h3 h4 h5 h6 h7
  · exact absurd h1.1 (not_le.mpr (by linarith))
  · exact absurd h2.1 (not_le.mpr (by linarith))
  · exact absurd h3.1 (not_le.mpr (by linarith))
  · exact absurd h4.1 (not_le.mpr (by linarith))
  · exact absurd h5.1 (not_le.mpr (by linarith))
  · exact absurd h6.1 (not_le.mpr (by linarith))
  · exact absurd h7.1 (not_le.mpr (by linarith))
  · rfl

/-- C2 amended witness: at cost 0 the chosen margin is 0.05. -/
theorem claim_margin_below_one_cent_witness : _choose_margin 0 = 0.05 :=
  claim_margin_below_one_cent 0 (by norm_num)

/-- C3 counterexample: the margin table is NOT non-increasing over its whole
domain. The code's brackets have gaps: 4.995 lies in the spec bracket
`[0.01, 5)` but fails `0.01 ≤ c ≤ 4.99`, so it gets the catch-all margin
0.05, strictly below the margin 0.15 of the larger cost 5. -/
theorem claim_margin_antitone_cex :
    (999 / 200 : ℚ) < 5 ∧ (0.01 : ℚ) ≤ 999 / 200 ∧
      _choose_margin (999 / 200) < _choose_margin 5 := by
  refine ⟨by norm_num, by norm_num, ?_⟩
  norm_num [_choose_margin]

/-- C3 amended: restricted to whole-cent costs of at least 0.01 — where the
code's closed brackets `[0.01,4.99]`, `[5,14.99]`, … leave no gaps — the
margin table is non-increasing: for cent counts `1 ≤ n1 < n2`,
`marginFor(n2/100) ≤ marginFor(n1/100)`. -/
theorem claim_margin_antitone_cents (n1 n2 : ℤ) (h1 : 1 ≤ n1) (h12 : n1 < n2) :
    _choose_margin ((n2 : ℚ) / 100) ≤ _choose_margin ((n1 : ℚ) / 100) := by
  rw [choose_margin_cents, choose_margin_cents]
  exact marginZ_antitone n1 n2 h1 h12

/-- C3 amended witness: margin at 20.00 is at most the margin at 1.00. -/
theorem claim_margin_antitone_cents_witness :
    _choose_margin (((2000 : ℤ) : ℚ) / 100) ≤ _choose_margin (((100 : ℤ) : ℚ) / 100) :=
  claim_margin_antitone_cents 100 2000 (by norm_num) (by norm_num)

/-- C4: the two concrete scenarios — `decide(36.99, no competitor)` gives
floor 72.75, final 72.75, margin 0.11 (low branch, since the branch-A price
stays at or below 100); `decide(3.27, no competitor)` gives floor 14.16,
final 14.16, margin 0.16. -/
theorem claim_concrete_scenarios :
    calc_final_price (some 36.99) none true = ⟨some 72.75, some 72.75, some 0.11⟩ ∧
    calc_final_price (some 3.27) none true = ⟨some 14.16, some 14.16, some 0.16⟩ := by
  constructor <;>
    norm_num [calc_final_price, _solve_pvp, _choose_margin, round2, round_eq, IVA_RATE,
      IVA_FRACTION_IN_GROSS, EFF_UNDER_100, EFF_OVER_100, REFERRAL_RATE_UNDER_100,
      REFERRAL_RATE_OVER_100, DST_RATE, STEP_ADJUST_NUMERATOR, SHIP_SURCHARGE]

/-- C10: with an absent cost, `calc_final_price` produces no quote — floor
price, final price and margin are all absent, for every competitor price and
every rounding flag; the function is total, so it cannot raise. -/
theorem claim_absent_cost_no_quote (cp : Option ℚ) (b : Bool) :
    calc_final_price none cp b = ⟨none, none, none⟩ := rfl

end PricingEngine

namespace AsinResolver

/-- `_digits` from `asin_resolver.py`: keep only the digit characters. -/
def digitsOnly (s : String) : String := ⟨s.data.filter Char.isDigit⟩

/-- Python's `str.strip` on a character list: drop whitespace at both ends. -/
def trimChars (l : List Char) : List Char :=
  ((l.dropWhile Char.isWhitespace).reverse.dropWhile Char.isWhitespace).reverse

/-- `re.sub(r"\s+", " ", ·)`: collapse every whitespace run to one space.
The flag records whether the previous kept character was part of a run. -/
def collapseWs : Bool → List Char → List Char
  | _, [] => []
  | prevWs, c :: rest =>
    if c.isWhitespace then
      if prevWs then collapseWs true rest else ' ' :: collapseWs true rest
    else c :: collapseWs false rest

/-- `_norm` from `asin_resolver.py`: strip, lower-case, collapse whitespace. -/
def _norm (s : String) : String :=
  ⟨collapseWs false ((trimChars s.data).map Char.toLower)⟩

/-- Helper for substring containment: does the haystack start with the needle? -/
def seqStarts : List Char → List Char → Bool
  | [], _ => true
  | _ :: _, [] => false
  | a :: as, b :: bs => a == b && seqStarts as bs

/-- Python's `needle in hay` on strings: contiguous substring containment. -/
def seqContains (needle : List Char) : List Char → Bool
  | [] => seqStarts needle []
  | c :: t => seqStarts needle (c :: t) || seqContains needle t

/-- `needle in hay` lifted to `String`. -/
def strContains (hay needle : String) : Bool := seqContains needle.data hay.data

/-- The brand tie-break test used by `resolve_asin` and `suggest_candidates`:
`brand and ib and (brand == ib or brand in ib or ib in brand)`. -/
def brandTie (brand ib : String) : Bool :=
  brand != "" && ib != "" && (brand == ib || strContains ib brand || strContains brand ib)

/-- Python's `\w` character class (ASCII portion): letters, digits, underscore. -/
def isWordChar (c : Char) : Bool := c.isAlphanum || c == '_'

/-- `_token_overlap` from `asin_resolver.py`: Jaccard-style overlap
`|ta ∩ tb| / max(|ta|, |tb|)` over word-boundary token sets. -/
def _token_overlap (a b : String) : ℚ :=
  let ta := ((a.data.splitOnP (fun c => !isWordChar c)).filter (fun t => t ≠ [])).dedup
  let tb := ((b.data.splitOnP (fun c => !isWordChar c)).filter (fun t => t ≠ [])).dedup
  if ta.isEmpty || tb.isEmpty then 0
  else ((ta.filter (fun t => tb.contains t)).length : ℚ) / (max ta.length tb.length : ℚ)

/-- A catalog item as consumed by `resolve_asin`: the fields `asin`, `brand`,
`eans`, `matched_by_query` of the dicts returned by `catalog_search_by_ean`. -/
structure EanItem where
  asin : Option String
  brand : String
  eans : List String
  matched_by_query : Bool
deriving DecidableEq, Repr

/-- A scored keyword candidate (`{asin, title, brand, score}`). -/
structure Cand where
  asin : Option String
  title : String
  brand : String
  score : ℚ
deriving DecidableEq, Repr

/-- The dict returned by `resolve_asin`: `{status, asin, score, candidates}`. -/
structure ResolveResult where
  status : String
  asin : Option String
  score : ℚ
  candidates : List Cand
deriving DecidableEq, Repr

/-- `resolve_asin` from `asin_resolver.py` (lines 75–113). The two external
searches are supplied as data: `eanItems` is the result of
`client.catalog_search_by_ean(ean) or []` (used only when the digit-stripped
EAN is non-empty) and `kwCand` is the result of `suggest_candidates`. -/
def resolve_asin (brandRaw eanRaw : String) (eanItems : List EanItem)
    (kwCand : List Cand) : ResolveResult :=
  let brand := _norm brandRaw
  let ean := digitsOnly eanRaw
  if ean = "" then ⟨"catalog_ambiguous", none, 0, kwCand⟩
  else
    match eanItems with
    | [] => ⟨"catalog_ambiguous", none, 0, kwCand⟩
    | i0 :: rest =>
      let items := i0 :: rest
      let query_confirmed := items.any (fun it => it.matched_by_query)
      match items.filter (fun it => it.eans.contains ean) with
      | e0 :: es =>
        let best := ((e0 :: es).find? (fun it => brandTie brand (_norm it.brand))).getD e0
        ⟨"catalog_match", best.asin, 0.99, []⟩
      | [] =>
        if query_confirmed then
          let best := (items.find? (fun it => brandTie brand (_norm it.brand))).getD i0
          ⟨"catalog_match", best.asin, 0.95, []⟩
        else ⟨"catalog_ambiguous", none, 0, kwCand⟩

/-- The score computed for one keyword-search result inside
`suggest_candidates` (`asin_resolver.py` lines 49–55). `simFn` stands for
difflib's `SequenceMatcher(None, a, b).ratio()`, an external library
function; `_similarity` guards it with `if a and b else 0.0`. -/
def candidateScore (simFn : String → String → ℚ) (brandRaw titleRaw : String)
    (itTitleRaw itBrandRaw : String) : ℚ :=
  let brand := _norm brandRaw
  let title := _norm titleRaw
  let it_title := _norm itTitleRaw
  let it_brand := _norm itBrandRaw
  let sim := if title ≠ "" ∧ it_title ≠ "" then simFn title it_title else 0
  let tok := _token_overlap title it_title
  let brand_bonus : ℚ := if brandTie brand it_brand then 0.2 else 0
  0.6 * sim + 0.3 * tok + brand_bonus

lemma overlap_frac_nonneg (ta tb : List (List Char)) :
    0 ≤ (if ta.isEmpty || tb.isEmpty then (0 : ℚ)
      else ((ta.filter (fun t => tb.contains t)).length : ℚ) /
        max (ta.length : ℚ) (tb.length : ℚ)) := by
  split
  · norm_num
  · positivity

lemma overlap_frac_le_one (ta tb : List (List Char)) :
    (if ta.isEmpty || tb.isEmpty then (0 : ℚ)
      else ((ta.filter (fun t => tb.contains t)).length : ℚ) /
        max (ta.length : ℚ) (tb.length : ℚ)) ≤ 1 := by
  split
  · norm_num
  · rename_i h
    rcases ta with _ | ⟨t, ts⟩
    · simp at h
    · have h1 : 0 < (t :: ts).length := by simp
      have h1q : (0 : ℚ) < ((t :: ts).length : ℚ) := by exact_mod_cast h1
      have hden : (0 : ℚ) < max ((t :: ts).length : ℚ) (tb.length : ℚ) :=
        lt_of_lt_of_le h1q (le_max_left _ _)
      rw [div_le_one hden]
      calc (((t :: ts).filter (fun x => tb.contains x)).length : ℚ)
          ≤ ((t :: ts).length : ℚ) := by exact_mod_cast List.length_filter_le _ _
        _ ≤ max ((t :: ts).length : ℚ) (tb.length : ℚ) := le_max_left _ _

lemma token_overlap_nonneg (a b : String) : 0 ≤ _token_overlap a b :=
  overlap_frac_nonneg _ _

lemma token_overlap_le_one (a b : String) : _token_overlap a b ≤ 1 :=
  overlap_frac_le_one _ _

/-- Items for the C5 counterexample: the first search result does not carry
`matched_by_query`, the second does; neither exposes the queried EAN. -/
def cex5Items : List EanItem :=
  [⟨some "A", "", [], false⟩, ⟨some "B", "", [], true⟩]

/-- C5 counterexample: when no candidate exposes the EAN but some candidate
has `matched_by_query = true`, `resolve_asin` does NOT accept the first such
candidate — it accepts the first candidate of the whole result list (here
item "A", which itself has `matched_by_query = false`), not the first
query-confirmed one (item "B"). -/
theorem claim_resolve_ean_hit_cex :
    resolve_asin "" "123" cex5Items [] = ⟨"catalog_match", some "A", 0.95, []⟩ ∧
    (cex5Items.find? (fun it => it.matched_by_query)).map (fun it => it.asin) =
      some (some "B") ∧
    some "A" ≠ some "B" := by
  with_unfolding_all decide

/-- C5 amended: with a non-empty digit-stripped EAN and a non-empty EAN-search
result list, `resolve_asin` (a) accepts, at confidence 0.99 with an empty
candidate list, the first brand-tie-breaking match among the candidates whose
`eans` list contains the EAN (falling back to the first such candidate); and
(b) when no candidate exposes the EAN but some candidate is query-confirmed,
accepts at confidence 0.95 the first brand-tie-breaking match among ALL
candidates, falling back to the head of the result list — not necessarily a
candidate with `matched_by_query = true`. -/
theorem claim_resolve_ean_hit (brand ean : String) (i0 : EanItem) (rest : List EanItem)
    (kw : List Cand) (he : digitsOnly ean ≠ "") :
    (∀ e0 es,
      (i0 :: rest).filter (fun it => it.eans.contains (digitsOnly ean)) = e0 :: es →
      resolve_asin brand ean (i0 :: rest) kw =
        ⟨"catalog_match",
          (((e0 :: es).find? (fun it => brandTie (_norm brand) (_norm it.brand))).getD e0).asin,
          0.99, []⟩) ∧
    ((i0 :: rest).filter (fun it => it.eans.contains (digitsOnly ean)) = [] →
      (i0 :: rest).any (fun it => it.matched_by_query) = true →
      resolve_asin brand ean (i0 :: rest) kw =
        ⟨"catalog_match",
          (((i0 :: rest).find? (fun it => brandTie (_norm brand) (_norm it.brand))).getD i0).asin,
          0.95, []⟩) := by
  constructor
  · intro e0 es hx
    simp only [resolve_asin, he, hx, if_neg, ite_false, reduceIte]
  · intro hx hq
    simp only [resolve_asin, he, hx, hq, if_neg, ite_false, ite_true, reduceIte]

/-- C5 amended witness: one candidate exposing the EAN is accepted at 0.99. -/
theorem claim_resolve_ean_hit_witness :
    resolve_asin "acme" "40001234" [⟨some "Z", "Acme", ["40001234"], true⟩] [] =
      ⟨"catalog_match", some "Z", 0.99, []⟩ := by
  have h := (claim_resolve_ean_hit "acme" "40001234" ⟨some "Z", "Acme", ["40001234"], true⟩ []
    [] (by with_unfolding_all decide)).1 ⟨some "Z", "Acme", ["40001234"], true⟩ []
    (by with_unfolding_all decide)
  rw [h]
  with_unfolding_all decide

/-- C6 amended (Identity Resolver part): `resolve_asin` classifies a record
with a non-empty EAN whose EAN search returns zero candidates, as well as a
record whose EAN is empty after digit-stripping, as `catalog_ambiguous`,
carrying the (possibly empty) keyword-candidate list. -/
theorem claim_resolver_ambiguous (brand ean : String) (items : List EanItem)
    (kw : List Cand) :
    (digitsOnly ean ≠ "" →
      resolve_asin brand ean [] kw = ⟨"catalog_ambiguous", none, 0, kw⟩) ∧
    (digitsOnly ean = "" →
      resolve_asin brand ean items kw = ⟨"catalog_ambiguous", none, 0, kw⟩) := by
  constructor
  · intro h
    unfold resolve_asin
    rw [if_neg h]
  · intro h
    unfold resolve_asin
    rw [if_pos h]

/-- C6 amended witness: a real EAN with an empty search result, and an empty
EAN, both come back `catalog_ambiguous` with the supplied candidates. -/
theorem claim_resolver_ambiguous_witness :
    resolve_asin "b" "123" [] [] = ⟨"catalog_ambiguous", none, 0, []⟩ ∧
    resolve_asin "b" "" [⟨some "A", "", [], true⟩] [] =
      ⟨"catalog_ambiguous", none, 0, []⟩ :=
  ⟨(claim_resolver_ambiguous "b" "123" [] []).1 (by with_unfolding_all decide),
   (claim_resolver_ambiguous "b" "" [⟨some "A", "", [], true⟩] []).2
     (by with_unfolding_all decide)⟩

/-- Modelled from the spec: `titleSimilarity` is difflib's
`SequenceMatcher(None, a, b).ratio()`, a normalized string-similarity ratio
from the Python standard library (not part of this repository). The only
value the counterexample needs is that the ratio of two identical non-empty
strings is 1; away from that case this model returns 0, which is also a
legal ratio value. -/
def ratioOnEqual (a b : String) : ℚ := if a == b && a != "" then 1 else 0

lemma ratioOnEqual_bounds (a b : String) : 0 ≤ ratioOnEqual a b ∧ ratioOnEqual a b ≤ 1 := by
  unfold ratioOnEqual
  split <;> norm_num

/-- C9 counterexample: on supplier brand "x", title "abc" and a candidate with
identical title and brand (similarity 1, token overlap 1, brand bonus on),
the code's score is `0.6·1 + 0.3·1 + 0.2 = 1.1`: it exceeds 1, so the score
is not in [0,1], and it differs from the claimed formula
`0.6·sim + 0.3·overlap + 0.2·brandBonus` with `brandBonus = 0.2`, which
yields 0.94 — the bonus is added, not multiplied by 0.2. -/
theorem claim_candidate_score_cex :
    candidateScore ratioOnEqual "x" "abc" "abc" "x" = 1.1 ∧
    ¬(candidateScore ratioOnEqual "x" "abc" "abc" "x" ≤ 1) ∧
    candidateScore ratioOnEqual "x" "abc" "abc" "x" ≠ 0.6 * 1 + 0.3 * 1 + 0.2 * 0.2 := by
  with_unfolding_all decide

/-- C9 amended: for every similarity function with values in [0,1] (difflib's
ratio is one), the candidate score equals
`0.6·titleSimilarity + 0.3·titleTokenOverlap + brandBonus` where
`brandBonus` is 0.2 exactly when both normalized brands are non-empty and one
contains the other (else 0), and the score lies in [0, 1.1]. -/
theorem claim_candidate_score (simFn : String → String → ℚ)
    (hsim : ∀ a b, 0 ≤ simFn a b ∧ simFn a b ≤ 1)
    (brand title itTitle itBrand : String) :
    candidateScore simFn brand title itTitle itBrand =
      0.6 * (if _norm title ≠ "" ∧ _norm itTitle ≠ "" then
          simFn (_norm title) (_norm itTitle) else 0)
        + 0.3 * _token_overlap (_norm title) (_norm itTitle)
        + (if brandTie (_norm brand) (_norm itBrand) then 0.2 else 0) ∧
    0 ≤ candidateScore simFn brand title itTitle itBrand ∧
    candidateScore simFn brand title itTitle itBrand ≤ 1.1 := by
  refine ⟨rfl, ?_, ?_⟩ <;>
  · have hs : 0 ≤ (if _norm title ≠ "" ∧ _norm itTitle ≠ "" then
          simFn (_norm title) (_norm itTitle) else 0) ∧
        (if _norm title ≠ "" ∧ _norm itTitle ≠ "" then
          simFn (_norm title) (_norm itTitle) else 0) ≤ 1 := by
      split
      · exact hsim _ _
      · norm_num
    have ht0 := token_overlap_nonneg (_norm title) (_norm itTitle)
    have ht1 := token_overlap_le_one (_norm title) (_norm itTitle)
    have hb : 0 ≤ (if brandTie (_norm brand) (_norm itBrand) then (0.2 : ℚ) else 0) ∧
        (if brandTie (_norm brand) (_norm itBrand) then (0.2 : ℚ) else 0) ≤ 0.2 := by
      split <;> norm_num
    show _
    unfold candidateScore
    linarith [hs.1, hs.2, hb.1, hb.2]

/-- C9 amended witness: the bounds instantiated at the counterexample input,
where the score is exactly the upper end 1.1. -/
theorem claim_candidate_score_witness :
    0 ≤ candidateScore ratioOnEqual "x" "abc" "abc" "x" ∧
    candidateScore ratioOnEqual "x" "abc" "abc" "x" ≤ 1.1 :=
  ⟨(claim_candidate_score ratioOnEqual ratioOnEqual_bounds "x" "abc" "abc" "x").2.1,
   (claim_candidate_score ratioOnEqual ratioOnEqual_bounds "x" "abc" "abc" "x").2.2⟩

end AsinResolver

namespace SupridesIdentify

/-- Python's `s.strip().lower()`. -/
def stripLower (s : String) : String :=
  ⟨(AsinResolver.trimChars s.data).map Char.toLower⟩

/-- Python's `s.lower()`. -/
def lowerStr (s : String) : String := ⟨s.data.map Char.toLower⟩

/-- One entry of an item's `summaries` list, with the fields
`_choose_best_catalog_item` reads. -/
structure SSummary where
  marketplaceId : String
  brand : String
  itemName : String
deriving DecidableEq, Repr

/-- One item of the Catalog search payload: the `asin` key (the
`asin`/`ASIN`/`Asin` alternatives collapse into one optional field) and the
`summaries` list. -/
structure SCatItem where
  asin : Option String
  summaries : List SSummary
deriving DecidableEq, Repr

/-- Descending lexicographic comparison of `(score, asin)` pairs, as done by
Python's `ranked.sort(reverse=True)`. -/
def pairGe (x y : ℤ × String) : Prop :=
  y.1 < x.1 ∨ (y.1 = x.1 ∧ ¬ x.2 < y.2)

instance : DecidableRel pairGe := fun x y => by
  unfold pairGe
  infer_instance

/-- `_choose_best_catalog_item` from `suprides_identify.py` (lines 123–166):
filter to the marketplace, return `not_found` on zero usable items,
`catalog_match` on a single one, and otherwise rank by brand/title hints and
accept only a clear brand agreement. -/
def _choose_best_catalog_item (mkt : String) (items : List SCatItem)
    (supplier_brand : String) : Option String × String :=
  match items with
  | [] => (none, "not_found")
  | _ :: _ =>
    let cand := items.filterMap (fun it =>
      match it.asin, it.summaries.find? (fun s => s.marketplaceId == mkt) with
      | some a, some s => if a ≠ "" then some (a, s) else none
      | _, _ => none)
    match cand with
    | [] => (none, "not_found")
    | [(a, _)] => (some a, "catalog_match")
    | _ :: _ :: _ =>
      let sb := stripLower supplier_brand
      let ranked := cand.map (fun p =>
        let b := stripLower p.2.brand
        let score : ℤ :=
          (if sb != "" && b != "" &&
              (AsinResolver.strContains b sb || AsinResolver.strContains sb b)
            then 10 else 0)
          + (if sb != "" && AsinResolver.strContains (lowerStr p.2.itemName) sb
            then 3 else 0)
        (score, p.1))
      match List.insertionSort pairGe ranked with
      | (s0, a0) :: _ => if 10 ≤ s0 then (some a0, "catalog_match")
                         else (none, "catalog_ambiguous")
      | [] => (none, "catalog_ambiguous")

/-- The per-record classification slice of `classify_suprides_products`
(`suprides_identify.py` lines 210–229): the `missing_ean` early return, the
EAN catalog search with its `except Exception: items = []` guard, and the
`_choose_best_catalog_item` decision. The search collaborator's outcome is
passed as an `Except` value; the later offers step (which can only upgrade a
found ASIN to `listed`) is outside this slice and cannot fire when the item
list is empty. -/
def supridesBase (mkt ean brand : String)
    (searchOutcome : Except Unit (List SCatItem)) : Option String × String :=
  if ean = "" then (none, "missing_ean")
  else
    let items :=
      match searchOutcome with
      | .ok l => l
      | .error _ => []
    _choose_best_catalog_item mkt items brand

/-- The batch loop: one output classification per record, in order, whatever
each record's collaborator outcome is. -/
def supridesBatchStatuses (mkt : String)
    (recs : List (String × String × Except Unit (List SCatItem))) :
    List (Option String × String) :=
  recs.map (fun r => supridesBase mkt r.1 r.2.1 r.2.2)

/-- C6 counterexample: in the Suprides batch classifier, a record with a
non-empty EAN whose EAN search returns zero candidates is classified
`not_found` (not `catalog_ambiguous`), and a record with an empty EAN is
classified with the terminal `missing_ean` (no keyword fallback exists in
this pipeline). -/
theorem claim_resolver_ambiguous_cex :
    (supridesBase "M" "123" "b" (Except.ok [])).2 = "not_found" ∧
    ¬((supridesBase "M" "123" "b" (Except.ok [])).2 = "catalog_ambiguous") ∧
    (supridesBase "M" "" "b" (Except.ok [])).2 = "missing_ean" := by
  with_unfolding_all decide

/-- C8 counterexample: when the EAN-search collaborator raises, the record's
stored classification is `not_found` — exactly the same marker as a genuine
zero-candidate search, so "we couldn't look" is NOT distinguishable from
"we looked and found nothing". -/
theorem claim_failure_marker_cex :
    (supridesBase "M" "123" "b" (Except.error ())).2 = "not_found" ∧
    supridesBase "M" "123" "b" (Except.error ()) =
      supridesBase "M" "123" "b" (Except.ok []) := by
  with_unfolding_all decide

/-- C8 amended: a collaborator failure while processing one record does not
abort the batch — the exception is swallowed per record and every record
still yields exactly one classification — but the failed record is stored as
`not_found`, indistinguishable from a genuine empty search result, not as a
distinct failure marker. -/
theorem claim_failure_marker (mkt ean brand : String) (he : ean ≠ "") :
    supridesBase mkt ean brand (Except.error ()) = (none, "not_found") ∧
    supridesBase mkt ean brand (Except.error ()) =
      supridesBase mkt ean brand (Except.ok []) ∧
    ∀ recs, (supridesBatchStatuses mkt recs).length = recs.length := by
  refine ⟨?_, ?_, ?_⟩
  · unfold supridesBase
    rw [if_neg he]
    rfl
  · unfold supridesBase
    rw [if_neg he]
  · intro recs
    simp [supridesBatchStatuses]

/-- C8 amended witness: the failure collapse at a concrete record. -/
theorem claim_failure_marker_witness :
    supridesBase "M" "1" "b" (Except.error ()) = (none, "not_found") :=
  (claim_failure_marker "M" "1" "b" (by with_unfolding_all decide)).1

end SupridesIdentify

namespace ProductIdentify

/-- Python's `s.upper()`. -/
def upperStr (s : String) : String := ⟨s.data.map Char.toUpper⟩

/-- The dict returned by `_resolve_asin_by_ean`: `{asin, status, score}`. -/
structure EanRes where
  asin : String
  status : String
  score : ℚ
deriving DecidableEq, Repr

/-- A catalog item as read by `_resolve_asin_by_ean`: `asin` (with the
`or ""` default) and the exposed `eans` list. -/
structure PIItem where
  asin : String
  eans : List String
deriving DecidableEq, Repr

/-- `_resolve_asin_by_ean` from `product_identify.py` (lines 61–84); `items`
is the collaborator result `client.catalog_search_by_ean(ean) or []`. -/
def _resolve_asin_by_ean (eanRaw : String) (items : List PIItem) : EanRes :=
  let ean := AsinResolver.digitsOnly eanRaw
  if ean = "" then ⟨"", "catalog_ambiguous", 0⟩
  else
    match items with
    | [] => ⟨"", "catalog_ambiguous", 0⟩
    | i0 :: rest =>
      match (i0 :: rest).filter (fun it => it.eans.contains ean) with
      | e0 :: _ => ⟨e0.asin, "catalog_match", 0.99⟩
      | [] => ⟨i0.asin, "catalog_match", 0.95⟩

/-- The ASIN a record resolves to in `classify_products` step 2: the
(cache-or-client) resolver's ASIN upper-cased when the digit-stripped EAN is
non-empty, else the empty string. -/
def resolvedAsin (eanRaw : String) (resolver : String → EanRes) : String :=
  let ean := AsinResolver.digitsOnly eanRaw
  if ean ≠ "" then upperStr (resolver ean).asin else ""

/-- The status a record resolves to in `classify_products` step 2 (before
reconciliation): the resolver's status when the digit-stripped EAN is
non-empty, else the default `catalog_ambiguous`. -/
def resolvedStatus (eanRaw : String) (resolver : String → EanRes) : String :=
  let ean := AsinResolver.digitsOnly eanRaw
  if ean ≠ "" then (resolver ean).status else "catalog_ambiguous"

/-- The status column assigned to one record by `classify_products`
(`product_identify.py` lines 133–206): the SKU own-listing override (step 1),
the EAN resolution (step 2, via the `resolver` collaborator standing for the
cache/SP-API composite), the resolved-ASIN own-listing override (step 3), and
the untouched resolver status otherwise (step 4). `invBySku` is the
`inv_by_sku` mapping (SKU → inventory ASIN) and `invAsinKeys` the key set of
`inv_by_asin`. -/
def classify_status (invBySku : List (String × String)) (invAsinKeys : List String)
    (sku eanRaw : String) (resolver : String → EanRes) : String :=
  match invBySku.find? (fun p => p.1 == sku) with
  | some _ => "listed"
  | none =>
    let asin := resolvedAsin eanRaw resolver
    let status := resolvedStatus eanRaw resolver
    if asin ≠ "" ∧ invAsinKeys.contains asin then "listed" else status

/-- C7: reconciliation dominance of own listings — if the record's SKU is in
the own-listings snapshot, or the resolver produced a non-empty ASIN present
in the snapshot, `classify_products` stores `listed`, whatever the resolver
returned; otherwise the resolver's classification is stored untouched. -/
theorem claim_listed_dominance (invBySku : List (String × String))
    (invAsinKeys : List String) (sku ean : String) (resolver : String → EanRes) :
    ((invBySku.find? (fun p => p.1 == sku)).isSome = true →
      classify_status invBySku invAsinKeys sku ean resolver = "listed") ∧
    (invBySku.find? (fun p => p.1 == sku) = none →
      resolvedAsin ean resolver ≠ "" →
      invAsinKeys.contains (resolvedAsin ean resolver) = true →
      classify_status invBySku invAsinKeys sku ean resolver = "listed") ∧
    (invBySku.find? (fun p => p.1 == sku) = none →
      ¬(resolvedAsin ean resolver ≠ "" ∧
          invAsinKeys.contains (resolvedAsin ean resolver) = true) →
      classify_status invBySku invAsinKeys sku ean resolver =
        resolvedStatus ean resolver) := by
  refine ⟨?_, ?_, ?_⟩
  · intro h
    obtain ⟨v, hv⟩ := Option.isSome_iff_exists.mp h
    unfold classify_status
    rw [hv]
  · intro hn ha hc
    unfold classify_status
    rw [hn, if_pos ⟨ha, hc⟩]
  · intro hn hneg
    unfold classify_status
    rw [hn, if_neg hneg]

/-- C7 witness: a SKU present in the own-listings snapshot is forced to
`listed` even though the resolver said `catalog_ambiguous`. -/
theorem claim_listed_dominance_witness :
    classify_status [("S", "A1")] [] "S" "" (fun _ => ⟨"", "catalog_ambiguous", 0⟩) =
      "listed" :=
  (claim_listed_dominance [("S", "A1")] [] "S" ""
    (fun _ => ⟨"", "catalog_ambiguous", 0⟩)).1 (by with_unfolding_all decide)

end ProductIdentify
